import Mathlib

/-!
Verification development for the `visits_planner` repository: a shallow
embedding of the weekly visit-plan data model (`visits/models.py`), the
plan status state machine and day-mutation endpoints (`visits/views.py`),
the admin guard (`visits/admin.py`), and the spreadsheet import
normalizers (`visits/importers.py`, `visits/views_import.py`).

Status / visit-type fields are `CharField`s in the source and are embedded
as `String` with the exact stored values ("draft", "approved", "unlock",
"in", "remote", "none", "pending", ...).  Database rows are embedded as
Lean structures, tables as lists, nullable columns as `Option`, and
timestamps as `Nat` (the concrete instant is irrelevant; only which
timestamp value is stored matters).
-/

namespace Visits

/-! ## Python string primitives used by the normalizers -/

/-- Python whitespace characters recognised by `str.strip()` (ASCII part). -/
def isPySpace (c : Char) : Bool :=
  c = ' ' || c = '\t' || c = '\n' || c = '\x0d' || c = '\x0b' || c = '\x0c'

/-- Python `str.strip()`: drop leading and trailing whitespace. -/
def pyStrip (s : String) : String :=
  String.mk (((s.toList.dropWhile isPySpace).reverse.dropWhile isPySpace).reverse)

/-- Python `s.replace(".0", "")`: remove every (non-overlapping, left-to-right)
occurrence of the two-character pattern ".0". -/
def removeDotZero : List Char → List Char
  | [] => []
  | '.' :: '0' :: rest => removeDotZero rest
  | c :: rest => c :: removeDotZero rest

/-- Python `s.replace(".0", "")` on `String`. -/
def pyRemoveDotZero (s : String) : String :=
  String.mk (removeDotZero s.toList)

/-- Python truthiness coercion `(v or default)` for an optional string:
`None` and the empty string are falsy. -/
def pyOr (v : Option String) (d : String) : String :=
  match v with
  | none => d
  | some s => if s = "" then d else s

/-- Python `str.lower()` (ASCII letters; Arabic tokens are unaffected,
matching CPython on those inputs). -/
def pyLower (s : String) : String :=
  String.mk (s.toList.map Char.toLower)

/-- Python `str.upper()` (ASCII letters). -/
def pyUpper (s : String) : String :=
  String.mk (s.toList.map Char.toUpper)

/-! ## `visits/importers.py` — normalizer helpers (lines 63-100) -/

namespace Importers

/-- `importers._cell`: `None -> ""`, otherwise `str(v).strip()`.
The embedding takes the cell as an optional string. -/
def _cell (v : Option String) : String :=
  match v with
  | none => ""
  | some s => pyStrip s

/-- `importers._digits` (lines 69-75): strip, drop the ".0" artifact,
strip again, then keep only decimal digits (`re.sub(r"\D+", "", s)`). -/
def _digits (v : Option String) : String :=
  let s := _cell v
  if s = "" then ""
  else
    let s := pyStrip (pyRemoveDotZero s)
    String.mk (s.toList.filter Char.isDigit)

/-- `importers._code` (lines 78-91): strip, drop the ".0" artifact, strip,
remove every character outside `[A-Za-z0-9]`, upper-case the result. -/
def _code (v : Option String) : String :=
  let s := _cell v
  if s = "" then ""
  else
    let s := pyStrip (pyRemoveDotZero s)
    pyUpper (String.mk (s.toList.filter (fun c => c.isAlpha || c.isDigit)))

end Importers

/-! ## `visits/views_import.py` — normalizer helpers (lines 54-96) -/

namespace ViewsImport

/-- `views_import._norm`: `None -> ""`, otherwise `str(v).strip()`. -/
def _norm (v : Option String) : String :=
  match v with
  | none => ""
  | some s => pyStrip s

/-- `views_import._digits` (lines 60-72): same pipeline as
`importers._digits`. -/
def _digits (v : Option String) : String :=
  let s := _norm v
  if s = "" then ""
  else
    let s := pyStrip (pyRemoveDotZero s)
    String.mk (s.toList.filter Char.isDigit)

/-- `views_import._code` (lines 75-87): strip, drop the ".0" artifact,
strip, then remove spaces only (`s.replace(" ", "")`).  Unlike
`importers._code` it does not remove other separators and does not
upper-case. -/
def _code (v : Option String) : String :=
  let s := _norm v
  if s = "" then ""
  else
    let s := pyStrip (pyRemoveDotZero s)
    String.mk (s.toList.filter (fun c => c ≠ ' '))

/-- `views_import._to_bool` (lines 90-96): fixed truthy/falsy vocabulary,
defaulting to `true`. -/
def _to_bool (v : Option String) : Bool :=
  let s := pyLower (_norm v)
  if s = "1" || s = "true" || s = "yes" || s = "y" || s = "نعم" then true
  else if s = "0" || s = "false" || s = "no" || s = "n" || s = "لا" then false
  else true

end ViewsImport

/-! ## `visits/models.py` — data model -/

namespace Models

/-- `School` (models.py lines 11-29): `stat_code` (unique), `name`,
`gender`, `is_active`.  The surrogate primary key is irrelevant to the
claims; the unique `stat_code` identifies a row. -/
structure School where
  stat_code : String
  name : String
  gender : String
  is_active : Bool
deriving Repr, DecidableEq

/-- `PlanWeek` (models.py lines 118-141): unique `week_no`, `start_sunday`
(a date, embedded as a day number), optional `title`, `is_break`. -/
structure PlanWeek where
  week_no : Nat
  start_sunday : Nat
  title : Option String := none
  is_break : Bool := false
deriving Repr, DecidableEq

/-- `PlanDay` (models.py lines 212-298): a weekday row of a plan.
`school_id` embeds the nullable `school` foreign key (the id is kept as the
submitted string, matching how the view assigns the raw POST value);
`visit_type` is the stored `CharField` value. -/
structure PlanDay where
  weekday : Nat
  school_id : Option String
  visit_type : String := "in"
  no_visit_reason : Option String := none
  note : Option String := none
deriving Repr, DecidableEq

/-- `Plan` (models.py lines 147-206) scalar columns.  The related `days`
rows and the optional `UnlockRequest` are passed alongside where an
operation touches them.  Stored status values: "draft", "approved",
"unlock" (`STATUS_UNLOCK_REQUESTED = "unlock"`). -/
structure Plan where
  status : String := "draft"
  saved_at : Option Nat := none
  approved_at : Option Nat := none
deriving Repr, DecidableEq

/-- `UnlockRequest` (models.py lines 304-351) columns relevant to the
one-to-one row attached to a plan. -/
structure UnlockRequest where
  status : String := "pending"
  created_at : Nat
  resolved_at : Option Nat := none
deriving Repr, DecidableEq

/-- `Plan.is_fully_filled` (models.py lines 192-206): every needed weekday
{0,1,2,3,4} must appear among the weekdays of days that either have a
school or have `visit_type = "none"` (`needed.issubset(filled)`). -/
def is_fully_filled (days : List PlanDay) : Bool :=
  [0, 1, 2, 3, 4].all fun wd =>
    days.any fun d => d.weekday == wd && (d.school_id.isSome || d.visit_type == "none")

end Models

/-! ## `visits/views.py` — supervisor and manager endpoints -/

namespace Views

open Models

/-- `WEEKDAYS` (views.py lines 38-44): the five plannable weekdays. -/
def WEEKDAYS : List Nat := [0, 1, 2, 3, 4]

/-- The user-facing flash message / JSON outcome each endpoint branch
produces (views.py `messages.info/success/warning` calls). -/
inductive Msg where
  | infoLocked
  | successApproved
  | warnIncomplete
  | successSaved
  | infoNotApproved
  | infoAlreadyPending
  | successUnlock
  | infoAlreadyApproved
  | infoAlreadyDraft
  | successBackToDraft
deriving Repr, DecidableEq

/-- The POST body of the supervisor plan form: `action`, and per-weekday
`school_{wd}` / `visit_{wd}` fields (absent fields are `none`). -/
structure PostForm where
  action : Option String
  school : Nat → Option String
  visit : Nat → Option String

/-- The visit-type actually stored for one submitted weekday
(views.py lines 339-341): `(POST.get(f"visit_{wd}") or "in").strip()`,
coerced to "in" unless it is "in" or "remote". -/
def normVisit (v : Option String) : String :=
  let vtype := pyStrip (pyOr v "in")
  if vtype = "in" || vtype = "remote" then vtype else "in"

/-- `PlanDay.objects.update_or_create(plan=..., weekday=wd, defaults=...)`
(views.py lines 344-348): update the existing weekday row's `school_id`
and `visit_type`, or create a fresh row (model defaults for the other
columns). -/
def update_or_create_day (days : List PlanDay) (wd : Nat) (sid vtype : String) :
    List PlanDay :=
  if days.any (fun d => d.weekday == wd) then
    days.map fun d =>
      if d.weekday == wd then { d with school_id := some sid, visit_type := vtype } else d
  else
    days ++ [{ weekday := wd, school_id := some sid, visit_type := vtype }]

/-- One iteration of the day loop (views.py lines 337-350): a non-empty
submitted school id upserts the weekday row; an empty one deletes it. -/
def post_day_step (days : List PlanDay) (wd : Nat)
    (school_raw visit_raw : Option String) : List PlanDay :=
  let sid := pyStrip (pyOr school_raw "")
  let vtype := normVisit visit_raw
  if sid ≠ "" then update_or_create_day days wd sid vtype
  else days.filter fun d => !(d.weekday == wd)

/-- The whole day loop `for wd, _ in WEEKDAYS: ...` of the POST branch. -/
def applyPostDays (form : PostForm) (days : List PlanDay) : List PlanDay :=
  WEEKDAYS.foldl (fun ds wd => post_day_step ds wd (form.school wd) (form.visit wd)) days

/-- `plan_view` POST branch (views.py lines 327-367), for the resolved
plan `p` with day rows `days`: the edit guard, the day loop, `saved_at`,
and the save/approve action split.  Returns the stored plan row, the
stored day rows, and the surfaced message. -/
def plan_view_post (now : Nat) (p : Plan) (days : List PlanDay) (form : PostForm) :
    Plan × List PlanDay × Msg :=
  if p.status == "approved" || p.status == "unlock" then
    (p, days, Msg.infoLocked)
  else
    let action := pyStrip (pyOr form.action "save")
    let days' := applyPostDays form days
    if action == "approve" then
      if is_fully_filled days' then
        ({ p with saved_at := some now, status := "approved", approved_at := some now },
          days', Msg.successApproved)
      else
        ({ p with saved_at := some now }, days', Msg.warnIncomplete)
    else
      ({ p with saved_at := some now }, days', Msg.successSaved)

/-- `request_unlock_view` (views.py lines 486-514), for the supervisor's
own plan with status `pstatus` and (optional) existing `UnlockRequest`
row `ur`.  Returns the stored plan status, the stored `UnlockRequest`
row, and the surfaced message. -/
def request_unlock_view (now : Nat) (pstatus : String) (ur : Option UnlockRequest) :
    String × Option UnlockRequest × Msg :=
  if ¬ pstatus == "approved" then
    (pstatus, ur, Msg.infoNotApproved)
  else
    match ur with
    | some req =>
      if req.status == "pending" then
        (pstatus, some req, Msg.infoAlreadyPending)
      else
        ("unlock", some { req with status := "pending", resolved_at := none },
          Msg.successUnlock)
    | none =>
      ("unlock", some { status := "pending", created_at := now, resolved_at := none },
        Msg.successUnlock)

/-- `_plan_filled_count` helper `day_map` (views.py line 240): the Python
dict comprehension `{d.weekday: d for d in plan.days.all()}` followed by
`.get(wd)` — the last row with a given weekday wins. -/
def day_map (days : List PlanDay) (wd : Nat) : Option PlanDay :=
  days.foldl (fun acc d => if d.weekday == wd then some d else acc) none

/-- `_plan_filled_count` (views.py lines 239-241): the number of weekdays
whose day row exists and has a school. -/
def _plan_filled_count (days : List PlanDay) : Nat :=
  WEEKDAYS.countP fun wd =>
    match day_map days wd with
    | some d => d.school_id.isSome
    | none => false

/-- `admin_plan_approve_view` (views.py lines 767-828) decision logic for
a found plan: already-approved short-circuit, the fully-filled guard,
then the approve write. -/
def admin_plan_approve_view (now : Nat) (p : Plan) (days : List PlanDay) : Plan × Msg :=
  if p.status == "approved" then
    (p, Msg.infoAlreadyApproved)
  else if ¬ is_fully_filled days then
    (p, Msg.warnIncomplete)
  else
    ({ p with status := "approved", approved_at := some now }, Msg.successApproved)

/-- `admin_plan_back_to_draft_view` (views.py lines 831-887) for a found
plan with day rows `days` and optional `UnlockRequest` row `ur`:
already-draft short-circuit, else force back to draft, clear
`approved_at` and delete any `UnlockRequest`. -/
def admin_plan_back_to_draft_view (p : Plan) (days : List PlanDay)
    (ur : Option UnlockRequest) : Plan × List PlanDay × Option UnlockRequest × Msg :=
  if p.status == "draft" then
    (p, days, ur, Msg.infoAlreadyDraft)
  else
    ({ p with status := "draft", approved_at := none }, days, none, Msg.successBackToDraft)

/-- `_resolve_week_or_404` (views.py lines 173-177): look the week number
up among all weeks, or only among non-break weeks when
`allow_inactive = False`; `none` embeds the 404. -/
def _resolve_week_or_404 (weeks : List PlanWeek) (week_no : Nat)
    (allow_inactive : Bool) : Option PlanWeek :=
  (if allow_inactive then weeks else weeks.filter fun w => !w.is_break).find?
    fun w => w.week_no == week_no

/-- The week resolution `plan_view` performs before `get_or_create`-ing a
plan (views.py line 312): `allow_inactive = False`. -/
def plan_view_resolve_week (weeks : List PlanWeek) (week_no : Nat) : Option PlanWeek :=
  _resolve_week_or_404 weeks week_no false

/-- Import statistics dict `{"created", "updated", "skipped"}`
(views.py line 940, views_import.py `ImportStats`). -/
structure ImportStats where
  created : Nat := 0
  updated : Nat := 0
  skipped : Nat := 0
deriving Repr, DecidableEq

/-- `School.objects.update_or_create(stat_code=..., defaults=...)` as used
by `import_schools_excel` (views.py lines 1001-1004): keyed on the unique
`stat_code`, the defaults update the existing row or populate a new one.
Returns the new table and the `created` flag. -/
def school_update_or_create (store : List School) (stat_code name gender : String)
    (active : Bool) : List School × Bool :=
  if store.any (fun s => s.stat_code == stat_code) then
    (store.map fun s =>
      if s.stat_code == stat_code then
        { s with name := name, gender := gender, is_active := active }
      else s, false)
  else
    (store ++ [{ stat_code := stat_code, name := name, gender := gender,
                 is_active := active }], true)

/-- `import_schools_excel` (views.py lines 986-1007).  The spreadsheet
plumbing (`_read_excel_dicts` / `_pick`) is embedded by taking each data
row as the pair of picked raw cell strings `(stat_code, name)`; the view
then applies `_cell_str` (strip) to each, skips rows missing either, and
upserts keyed on `stat_code` with `gender` from the call and
`is_active = True`. -/
def import_schools_excel (gender : String) :
    List School → ImportStats → List (String × String) → List School × ImportStats
  | store, st, [] => (store, st)
  | store, st, row :: rest =>
    let stat_code := pyStrip row.1
    let name := pyStrip row.2
    if stat_code = "" || name = "" then
      import_schools_excel gender store { st with skipped := st.skipped + 1 } rest
    else
      let r := school_update_or_create store stat_code name gender true
      if r.2 then
        import_schools_excel gender r.1 { st with created := st.created + 1 } rest
      else
        import_schools_excel gender r.1 { st with updated := st.updated + 1 } rest

end Views

/-! ## `visits/admin.py` — `PlanAdmin.save_model` -/

namespace Admin

open Models

/-- `PlanAdmin.save_model` (admin.py lines 165-169): raises
`ValidationError` when the plan's week is marked as a break, otherwise
persists (`Except.ok`). -/
def PlanAdmin_save_model (week : Option PlanWeek) : Except String Unit :=
  match week with
  | some w => if w.is_break then Except.error "ValidationError" else Except.ok ()
  | none => Except.ok ()

end Admin

/-! ## `visits/views_import.py` — `_import_schools` (lines 189-220)

The routed schools importer (`manager_import_view` → `_import_schools`)
upserts through Django's `QuerySet.update_or_create` with a `defaults`
dict whose keys include `education_type` and `stage`.  Django validates
the keys of `defaults` against the model's declared fields on the create
path (`_extract_model_params`, raising
`FieldError("Invalid field name(s) ...")` for unknown names); the
`School` model (models.py lines 11-29) declares only `stat_code`, `name`,
`gender`, `is_active`.  The embedding below carries the defaults as
(field-name, value) pairs and reproduces that check. -/

namespace ViewsImport

open Models

/-- A value placed in an `update_or_create` defaults dict. -/
inductive FieldVal where
  | str (v : String)
  | boolean (v : Bool)
deriving Repr, DecidableEq

/-- The declared fields of the `School` model (models.py lines 11-29),
plus the implicit primary key. -/
def schoolFieldNames : List String := ["id", "stat_code", "name", "gender", "is_active"]

/-- Assign one defaults entry onto a `School` row (`setattr`); an entry
whose name is not a declared field does not change any column. -/
def schoolSetField (s : School) (kv : String × FieldVal) : School :=
  match kv with
  | ("stat_code", FieldVal.str v) => { s with stat_code := v }
  | ("name", FieldVal.str v) => { s with name := v }
  | ("gender", FieldVal.str v) => { s with gender := v }
  | ("is_active", FieldVal.boolean v) => { s with is_active := v }
  | _ => s

/-- Django's `School.objects.update_or_create(stat_code=..., defaults=...)`
with an explicit defaults dict: the update path applies the defaults to
the matching row; the create path first validates every defaults key
against the model's fields and raises `FieldError` on an unknown name. -/
def school_update_or_create_dj (store : List School) (stat_code : String)
    (defaults : List (String × FieldVal)) : Except String (List School × Bool) :=
  if store.any (fun s => s.stat_code == stat_code) then
    Except.ok (store.map fun s =>
      if s.stat_code == stat_code then defaults.foldl schoolSetField s else s, false)
  else if defaults.all (fun kv => schoolFieldNames.contains kv.1) then
    Except.ok (store ++ [defaults.foldl schoolSetField
      { stat_code := stat_code, name := "", gender := "", is_active := true }], true)
  else
    Except.error "FieldError"

/-- One spreadsheet row as consumed by `_import_schools`: the cells looked
up under the canonical keys (absent key / empty cell ↦ `none`), plus
whether the `is_active` column is present at all (`"is_active" in r`). -/
structure ImportRow where
  stat_code : Option String := none
  name : Option String := none
  education_type : Option String := none
  stage : Option String := none
  has_is_active : Bool := false
  is_active : Option String := none

/-- `_import_schools` (views_import.py lines 189-220): per row, normalize
`stat_code` with `_code` and `name` with `_norm`, skip rows missing
either, and upsert with defaults
`{name, gender, education_type, stage, is_active}`.  An exception from
the upsert propagates (`Except.error`), which in `manager_import_view`
aborts the whole `transaction.atomic()` block, undoing every write. -/
def _import_schools (gender : String) :
    List School → Views.ImportStats → List ImportRow →
      Except String (List School × Views.ImportStats)
  | store, st, [] => Except.ok (store, st)
  | store, st, r :: rest =>
    let stat_code := _code r.stat_code
    let name := _norm r.name
    if stat_code = "" || name = "" then
      _import_schools gender store { st with skipped := st.skipped + 1 } rest
    else
      let defaults : List (String × FieldVal) :=
        [("name", FieldVal.str name),
         ("gender", FieldVal.str gender),
         ("education_type", FieldVal.str (_norm r.education_type)),
         ("stage", FieldVal.str (_norm r.stage)),
         ("is_active", FieldVal.boolean
            (if r.has_is_active then _to_bool r.is_active else true))]
      match school_update_or_create_dj store stat_code defaults with
      | Except.error e => Except.error e
      | Except.ok (store', created) =>
        if created then
          _import_schools gender store' { st with created := st.created + 1 } rest
        else
          _import_schools gender store' { st with updated := st.updated + 1 } rest

end ViewsImport

/-! ## Auxiliary definitions for the statements below -/

namespace Views

open Models

/-- A day row as the supervisor POST handler persists it: a school is
assigned and the visit type is in-person or remote. -/
def postGoodDay (d : PlanDay) : Prop :=
  d.school_id.isSome = true ∧ (d.visit_type = "in" ∨ d.visit_type = "remote")

/-- A concrete POST body: approve, with every weekday given school "1"
and visit type "in". -/
def approveAllForm : PostForm :=
  { action := some "approve", school := fun _ => some "1", visit := fun _ => some "in" }

/-- A concrete POST body with no field filled in. -/
def emptyForm : PostForm :=
  { action := some "save", school := fun _ => none, visit := fun _ => none }

/-- A concrete POST body: weekday 4 submitted without a school, weekday 2
submitted with the (unreachable) visit type "none", the rest remote. -/
def mixedForm : PostForm :=
  { action := some "save",
    school := fun wd => if wd = 4 then none else some "9",
    visit := fun wd => if wd = 2 then some "none" else some "remote" }

/-- Five day rows, one per weekday, each with a school. -/
def fiveSchoolDays : List Models.PlanDay :=
  [{ weekday := 0, school_id := some "1" }, { weekday := 1, school_id := some "1" },
   { weekday := 2, school_id := some "1" }, { weekday := 3, school_id := some "1" },
   { weekday := 4, school_id := some "1" }]

/-- Four day rows with schools plus an explicit no-visit day without a
school on weekday 4. -/
def fourPlusNoneDays : List Models.PlanDay :=
  [{ weekday := 0, school_id := some "1" }, { weekday := 1, school_id := some "1" },
   { weekday := 2, school_id := some "1" }, { weekday := 3, school_id := some "1" },
   { weekday := 4, school_id := none, visit_type := "none",
     no_visit_reason := some "meeting" }]

/-- Two day rows: weekday 0 with a school, weekday 4 an explicit
no-visit day. -/
def twoDays : List Models.PlanDay :=
  [{ weekday := 0, school_id := some "3" },
   { weekday := 4, school_id := none, visit_type := "none",
     no_visit_reason := some "other" }]

/-- A two-week calendar: week 1 active, week 2 a break. -/
def sampleWeeks : List Models.PlanWeek :=
  [{ week_no := 1, start_sunday := 100 },
   { week_no := 2, start_sunday := 107, is_break := true }]

end Views

/-! ## Helper lemmas -/

namespace Models

lemma mem_weekday_list (wd : Nat) : wd ∈ ([0, 1, 2, 3, 4] : List Nat) ↔ wd < 5 := by
  simp only [List.mem_cons, List.mem_singleton, List.not_mem_nil, or_false]
  omega

lemma is_fully_filled_iff (days : List PlanDay) :
    is_fully_filled days = true ↔
      ∀ wd, wd < 5 → ∃ d ∈ days, d.weekday = wd ∧
        (d.school_id ≠ none ∨ d.visit_type = "none") := by
  unfold is_fully_filled
  rw [List.all_eq_true]
  constructor
  · intro h wd hwd
    have hm := h wd ((mem_weekday_list wd).mpr hwd)
    rw [List.any_eq_true] at hm
    obtain ⟨d, hd, hprop⟩ := hm
    rw [Bool.and_eq_true, Bool.or_eq_true, beq_iff_eq] at hprop
    refine ⟨d, hd, hprop.1, ?_⟩
    rcases hprop.2 with h1 | h2
    · exact Or.inl (Option.isSome_iff_ne_none.mp h1)
    · exact Or.inr (by simpa using h2)
  · intro h wd hwd
    obtain ⟨d, hd, hwk, hor⟩ := h wd ((mem_weekday_list wd).mp hwd)
    rw [List.any_eq_true]
    refine ⟨d, hd, ?_⟩
    rw [Bool.and_eq_true, Bool.or_eq_true, beq_iff_eq]
    refine ⟨hwk, ?_⟩
    rcases hor with h1 | h2
    · exact Or.inl (Option.isSome_iff_ne_none.mpr h1)
    · exact Or.inr (by simpa using h2)

end Models

namespace Views

open Models

lemma normVisit_in_or_remote (v : Option String) :
    normVisit v = "in" ∨ normVisit v = "remote" := by
  unfold normVisit
  by_cases h1 : pyStrip (pyOr v "in") = "in"
  · simp [h1]
  · by_cases h2 : pyStrip (pyOr v "in") = "remote"
    · simp [h1, h2]
    · simp [h1, h2]

lemma post_day_step_mem (ds : List PlanDay) (wd : Nat) (s v : Option String)
    (d : PlanDay) (hd : d ∈ post_day_step ds wd s v) :
    (d ∈ ds ∧ d.weekday ≠ wd) ∨ (postGoodDay d ∧ d.weekday = wd) := by
  simp only [post_day_step] at hd
  split at hd
  · simp only [update_or_create_day] at hd
    split at hd
    · rcases List.mem_map.mp hd with ⟨d0, hd0, heq⟩
      by_cases hw : (d0.weekday == wd) = true
      · rw [if_pos hw] at heq
        subst heq
        exact Or.inr ⟨⟨rfl, normVisit_in_or_remote v⟩, by simpa using hw⟩
      · rw [if_neg hw] at heq
        subst heq
        exact Or.inl ⟨hd0, by simpa using hw⟩
    · next hnone =>
      rcases List.mem_append.mp hd with hin | hnew
      · left
        refine ⟨hin, ?_⟩
        have h2 : ∀ x ∈ ds, ¬ x.weekday = wd := by simpa using hnone
        exact h2 d hin
      · right
        rcases List.mem_singleton.mp hnew with rfl
        exact ⟨⟨rfl, normVisit_in_or_remote v⟩, rfl⟩
  · rcases List.mem_filter.mp hd with ⟨hin, hne⟩
    exact Or.inl ⟨hin, by simpa using hne⟩

lemma fold_post_days_good (form : PostForm) :
    ∀ (L : List Nat) (ds : List PlanDay),
      (∀ d ∈ ds, d.weekday ∈ L ∨ postGoodDay d) →
      ∀ d ∈ L.foldl (fun ds wd => post_day_step ds wd (form.school wd) (form.visit wd)) ds,
        postGoodDay d := by
  intro L
  induction L with
  | nil =>
    intro ds h d hd
    rcases h d hd with hmem | hg
    · exact absurd hmem (List.not_mem_nil _)
    · exact hg
  | cons a L ih =>
    intro ds h d hd
    simp only [List.foldl_cons] at hd
    refine ih _ ?_ d hd
    intro d' hd'
    rcases post_day_step_mem ds a _ _ d' hd' with ⟨hmem, hne⟩ | ⟨hg, _⟩
    · rcases h d' hmem with hin | hg
      · rcases List.mem_cons.mp hin with heq | hin'
        · exact absurd heq hne
        · exact Or.inl hin'
      · exact Or.inr hg
    · exact Or.inr hg

lemma post_day_step_absent (ds : List PlanDay) (wd' : Nat) (s v : Option String)
    (wd : Nat) (hne : wd' ≠ wd) (h : ∀ d ∈ ds, d.weekday ≠ wd) :
    ∀ d ∈ post_day_step ds wd' s v, d.weekday ≠ wd := by
  intro d hd
  rcases post_day_step_mem ds wd' s v d hd with ⟨hmem, _⟩ | ⟨_, hw⟩
  · exact h d hmem
  · rw [hw]; exact hne

lemma post_day_step_deletes (ds : List PlanDay) (wd : Nat) (s v : Option String)
    (hs : pyStrip (pyOr s "") = "") :
    ∀ d ∈ post_day_step ds wd s v, d.weekday ≠ wd := by
  intro d hd
  simp only [post_day_step, hs, ne_eq, not_true_eq_false, if_false] at hd
  rcases List.mem_filter.mp hd with ⟨_, hne⟩
  simpa using hne

lemma fold_post_days_absent (form : PostForm) (wd : Nat) :
    ∀ (L : List Nat) (ds : List PlanDay), wd ∉ L → (∀ d ∈ ds, d.weekday ≠ wd) →
      ∀ d ∈ L.foldl (fun ds w => post_day_step ds w (form.school w) (form.visit w)) ds,
        d.weekday ≠ wd := by
  intro L
  induction L with
  | nil => intro ds _ h d hd; exact h d hd
  | cons a L ih =>
    intro ds hnin h d hd
    simp only [List.foldl_cons] at hd
    have hane : a ≠ wd := fun hh => hnin (hh ▸ List.mem_cons_self a L)
    exact ih _ (fun hh => hnin (List.mem_cons_of_mem a hh))
      (post_day_step_absent ds a _ _ wd hane h) d hd

lemma fold_post_days_deleted (form : PostForm) (wd : Nat)
    (hs : pyStrip (pyOr (form.school wd) "") = "") :
    ∀ (L : List Nat), L.Nodup → wd ∈ L → ∀ ds,
      ∀ d ∈ L.foldl (fun ds w => post_day_step ds w (form.school w) (form.visit w)) ds,
        d.weekday ≠ wd := by
  intro L
  induction L with
  | nil => intro _ hmem; exact absurd hmem (List.not_mem_nil _)
  | cons a L ih =>
    intro hnd hmem ds d hd
    simp only [List.foldl_cons] at hd
    rcases List.mem_cons.mp hmem with heq | hmem'
    · subst heq
      exact fold_post_days_absent form wd L _ (List.nodup_cons.mp hnd).1
        (post_day_step_deletes ds wd _ _ hs) d hd
    · exact ih (List.nodup_cons.mp hnd).2 hmem' _ d hd

lemma plan_view_post_days (now : Nat) (p : Plan) (days : List PlanDay) (form : PostForm)
    (h1 : p.status = "draft") :
    (plan_view_post now p days form).2.1 = applyPostDays form days := by
  have hg : (p.status == "approved" || p.status == "unlock") = false := by rw [h1]; rfl
  simp only [plan_view_post, hg, Bool.false_eq_true, if_false]
  split
  · split <;> rfl
  · rfl

lemma day_map_aux (wd : Nat) :
    ∀ (ds : List PlanDay) (acc : Option PlanDay) (d : PlanDay),
      ds.foldl (fun acc d => if d.weekday == wd then some d else acc) acc = some d →
      (d ∈ ds ∧ d.weekday = wd) ∨ acc = some d := by
  intro ds
  induction ds with
  | nil => intro acc d h; exact Or.inr h
  | cons x ds ih =>
    intro acc d h
    simp only [List.foldl_cons] at h
    rcases ih _ d h with ⟨hm, hw⟩ | hacc
    · exact Or.inl ⟨List.mem_cons_of_mem _ hm, hw⟩
    · by_cases hx : (x.weekday == wd) = true
      · rw [if_pos hx] at hacc
        have hxd : x = d := by injection hacc
        subst hxd
        exact Or.inl ⟨List.mem_cons_self _ _, by simpa using hx⟩
      · rw [if_neg hx] at hacc
        exact Or.inr hacc

end Views

/-! ## Claims -/

open Models Views

/-- C1: for a Plan in draft status, submitting the approve action sets the
status to "approved" and approved_at to the current time iff the plan is
fully filled at call time (after the submitted day rows are written); when
it is not fully filled the status stays "draft", only saved_at is updated
by the save portion, and a warning is surfaced.  Conjuncts 1-2 cover the
supervisor endpoint, conjuncts 3-4 the manager approve endpoint. -/
theorem C1_approve_iff_fully_filled (now : Nat) (p : Plan) (days : List PlanDay)
    (form : PostForm) (h1 : p.status = "draft")
    (h2 : pyStrip (pyOr form.action "save") = "approve") :
    (((plan_view_post now p days form).1.status = "approved" ∧
        (plan_view_post now p days form).1.approved_at = some now) ↔
      is_fully_filled (applyPostDays form days) = true) ∧
    (is_fully_filled (applyPostDays form days) = false →
      (plan_view_post now p days form).1.status = "draft" ∧
      (plan_view_post now p days form).1.approved_at = p.approved_at ∧
      (plan_view_post now p days form).1.saved_at = some now ∧
      (plan_view_post now p days form).2.2 = Msg.warnIncomplete) ∧
    (((admin_plan_approve_view now p days).1.status = "approved" ∧
        (admin_plan_approve_view now p days).1.approved_at = some now) ↔
      is_fully_filled days = true) ∧
    (is_fully_filled days = false →
      (admin_plan_approve_view now p days).1 = p ∧
      (admin_plan_approve_view now p days).2 = Msg.warnIncomplete) := by
  have hg : (p.status == "approved" || p.status == "unlock") = false := by
    rw [h1]; rfl
  have hg2 : (p.status == "approved") = false := by rw [h1]; rfl
  refine ⟨?_, ?_, ?_, ?_⟩
  · by_cases hf : is_fully_filled (applyPostDays form days) = true
    · simp [plan_view_post, hg, h2, hf]
    · simp only [Bool.not_eq_true] at hf
      simp [plan_view_post, hg, h2, hf, h1]
  · intro hf
    simp [plan_view_post, hg, h2, hf, h1]
  · by_cases hf : is_fully_filled days = true
    · simp [admin_plan_approve_view, hg2, hf]
    · simp only [Bool.not_eq_true] at hf
      simp [admin_plan_approve_view, hg2, hf, h1]
  · intro hf
    simp [admin_plan_approve_view, hg2, hf]

/-- C1 witness: a draft plan submitted with every weekday filled and the
approve action becomes approved with approved_at set. -/
theorem C1_witness :
    ({} : Plan).status = "draft" ∧
    pyStrip (pyOr approveAllForm.action "save") = "approve" ∧
    (plan_view_post 7 {} [] approveAllForm).1.status = "approved" ∧
    (plan_view_post 7 {} [] approveAllForm).1.approved_at = some 7 := by
  have h := (C1_approve_iff_fully_filled 7 {} [] approveAllForm rfl rfl).1.mpr (by decide)
  exact ⟨rfl, rfl, h.1, h.2⟩

/-- C2: a plan is fully filled iff every weekday in 0..4 has a day row
with a non-null school or visit type "none". -/
theorem C2_fully_filled_characterization (days : List PlanDay) :
    is_fully_filled days = true ↔
      ∀ wd, wd < 5 → ∃ d ∈ days, d.weekday = wd ∧
        (d.school_id ≠ none ∨ d.visit_type = "none") :=
  is_fully_filled_iff days

/-- C2 witness: the characterization evaluated on a concrete fully filled
plan yields a qualifying day row for weekday 4 (the no-visit day). -/
theorem C2_witness :
    ∃ d ∈ fourPlusNoneDays, d.weekday = 4 ∧
      (d.school_id ≠ none ∨ d.visit_type = "none") :=
  (C2_fully_filled_characterization fourPlusNoneDays).mp (by decide) 4 (by decide)

/-- C3: a POST to the supervisor plan endpoint for a plan whose status is
"approved" or "unlock" performs no mutation — the plan row and the day
rows are returned unchanged — and only surfaces an informational
message. -/
theorem C3_locked_plan_post_noop (now : Nat) (p : Plan) (days : List PlanDay)
    (form : PostForm) (h : p.status = "approved" ∨ p.status = "unlock") :
    plan_view_post now p days form = (p, days, Msg.infoLocked) := by
  have hg : (p.status == "approved" || p.status == "unlock") = true := by
    rcases h with h | h <;> rw [h] <;> rfl
  simp [plan_view_post, hg]

/-- C3 witness: an approved plan POSTed to with an empty form is returned
untouched with the informational message. -/
theorem C3_witness :
    (({ status := "approved", saved_at := some 1, approved_at := some 2 } : Plan).status =
        "approved" ∨
      ({ status := "approved", saved_at := some 1, approved_at := some 2 } : Plan).status =
        "unlock") ∧
    plan_view_post 3 { status := "approved", saved_at := some 1, approved_at := some 2 }
        fiveSchoolDays emptyForm =
      ({ status := "approved", saved_at := some 1, approved_at := some 2 },
        fiveSchoolDays, Msg.infoLocked) :=
  ⟨Or.inl rfl, C3_locked_plan_post_noop 3 _ fiveSchoolDays emptyForm (Or.inl rfl)⟩

/-- C4: the unlock request succeeds iff the plan is approved and no
pending UnlockRequest exists; on success the plan status becomes
"unlock" and the UnlockRequest row is pending with resolved_at cleared;
on a non-approved plan nothing changes and a message is surfaced. -/
theorem C4_request_unlock (now : Nat) (pstatus : String) (ur : Option UnlockRequest) :
    ((request_unlock_view now pstatus ur).2.2 = Msg.successUnlock ↔
      (pstatus = "approved" ∧ ¬ ∃ q, ur = some q ∧ q.status = "pending")) ∧
    ((request_unlock_view now pstatus ur).2.2 = Msg.successUnlock →
      (request_unlock_view now pstatus ur).1 = "unlock" ∧
      ∃ q, (request_unlock_view now pstatus ur).2.1 = some q ∧
        q.status = "pending" ∧ q.resolved_at = none) ∧
    (pstatus ≠ "approved" →
      request_unlock_view now pstatus ur = (pstatus, ur, Msg.infoNotApproved)) := by
  by_cases ha : pstatus = "approved"
  · subst ha
    match ur with
    | none => simp [request_unlock_view]
    | some q =>
      by_cases hq : q.status = "pending"
      · simp [request_unlock_view, hq]
      · simp [request_unlock_view, hq]
  · simp [request_unlock_view, ha]

/-- C4 witness: an approved plan with no prior UnlockRequest succeeds and
moves to "unlock". -/
theorem C4_witness :
    (request_unlock_view 9 "approved" none).2.2 = Msg.successUnlock ∧
    (request_unlock_view 9 "approved" none).1 = "unlock" := by
  have h := C4_request_unlock 9 "approved" none
  have hs : (request_unlock_view 9 "approved" none).2.2 = Msg.successUnlock :=
    h.1.mpr ⟨rfl, by rintro ⟨q, hq, -⟩; cases hq⟩
  exact ⟨hs, (h.2.1 hs).1⟩

/-- C5: back-to-draft on an approved or unlock-requested plan sets the
status to "draft", clears approved_at, deletes the UnlockRequest and
leaves saved_at and the day rows untouched; on an already-draft plan it
is a no-op on every stored field. -/
theorem C5_back_to_draft (p : Plan) (days : List PlanDay) (ur : Option UnlockRequest) :
    (p.status = "approved" ∨ p.status = "unlock" →
      (admin_plan_back_to_draft_view p days ur).1.status = "draft" ∧
      (admin_plan_back_to_draft_view p days ur).1.approved_at = none ∧
      (admin_plan_back_to_draft_view p days ur).1.saved_at = p.saved_at ∧
      (admin_plan_back_to_draft_view p days ur).2.1 = days ∧
      (admin_plan_back_to_draft_view p days ur).2.2.1 = none) ∧
    (p.status = "draft" →
      admin_plan_back_to_draft_view p days ur = (p, days, ur, Msg.infoAlreadyDraft)) := by
  constructor
  · intro h
    have hg : (p.status == "draft") = false := by
      rcases h with h | h <;> rw [h] <;> rfl
    simp [admin_plan_back_to_draft_view, hg]
  · intro h
    have hg : (p.status == "draft") = true := by rw [h]; rfl
    simp [admin_plan_back_to_draft_view, hg]

/-- C5 witness: back-to-draft on a concrete approved plan with a pending
UnlockRequest drafts it, clears approved_at and deletes the request. -/
theorem C5_witness :
    (({ status := "approved", saved_at := some 1, approved_at := some 2 } : Plan).status =
        "approved" ∨
      ({ status := "approved", saved_at := some 1, approved_at := some 2 } : Plan).status =
        "unlock") ∧
    (admin_plan_back_to_draft_view
        { status := "approved", saved_at := some 1, approved_at := some 2 }
        fiveSchoolDays (some { status := "pending", created_at := 1 })).1.status = "draft" ∧
    (admin_plan_back_to_draft_view
        { status := "approved", saved_at := some 1, approved_at := some 2 }
        fiveSchoolDays (some { status := "pending", created_at := 1 })).1.approved_at = none ∧
    (admin_plan_back_to_draft_view
        { status := "approved", saved_at := some 1, approved_at := some 2 }
        fiveSchoolDays (some { status := "pending", created_at := 1 })).1.saved_at =
      ({ status := "approved", saved_at := some 1, approved_at := some 2 } : Plan).saved_at ∧
    (admin_plan_back_to_draft_view
        { status := "approved", saved_at := some 1, approved_at := some 2 }
        fiveSchoolDays (some { status := "pending", created_at := 1 })).2.1 = fiveSchoolDays ∧
    (admin_plan_back_to_draft_view
        { status := "approved", saved_at := some 1, approved_at := some 2 }
        fiveSchoolDays (some { status := "pending", created_at := 1 })).2.2.1 = none :=
  ⟨Or.inl rfl,
    (C5_back_to_draft { status := "approved", saved_at := some 1, approved_at := some 2 }
      fiveSchoolDays (some { status := "pending", created_at := 1 })).1 (Or.inl rfl)⟩

/-- C6: the supervisor plan endpoint resolves the requested week only
among non-break weeks (a break week 404s before any plan is created), and
the admin save path rejects any plan whose week is a break week with a
validation error. -/
theorem C6_break_week_guard (weeks : List PlanWeek) (n : Nat) (w w' : PlanWeek) :
    (plan_view_resolve_week weeks n = some w → w.is_break = false) ∧
    (w'.is_break = true →
      Admin.PlanAdmin_save_model (some w') = Except.error "ValidationError") := by
  constructor
  · intro h
    unfold plan_view_resolve_week _resolve_week_or_404 at h
    simp only [if_neg Bool.false_ne_true, Bool.false_eq_true, if_false] at h
    have hmem := List.mem_of_find?_eq_some h
    rw [List.mem_filter] at hmem
    simpa using hmem.2
  · intro h
    simp [Admin.PlanAdmin_save_model, h]

/-- C6 witness: in a calendar whose week 2 is a break, the supervisor
endpoint resolves week 1 to a non-break week, and the admin save path
rejects week 2. -/
theorem C6_witness :
    plan_view_resolve_week sampleWeeks 1 = some { week_no := 1, start_sunday := 100 } ∧
    ({ week_no := 1, start_sunday := 100 } : PlanWeek).is_break = false ∧
    ({ week_no := 2, start_sunday := 107, is_break := true } : PlanWeek).is_break = true ∧
    Admin.PlanAdmin_save_model (some { week_no := 2, start_sunday := 107, is_break := true }) =
      Except.error "ValidationError" := by
  have h := C6_break_week_guard sampleWeeks 1 { week_no := 1, start_sunday := 100 }
    { week_no := 2, start_sunday := 107, is_break := true }
  exact ⟨rfl, h.1 rfl, rfl, h.2 rfl⟩

/-- C7 counterexample: the claim states that the alphanumeric code
normalizer maps "70308-1" to "703081", but the views_import.py variant of
the normalizer — one of the two implementations the claim covers — keeps
the hyphen. -/
theorem C7_counterexample : ¬ (ViewsImport._code (some "70308-1") = "703081") := by
  decide

/-- C7 (amended): both digit normalizers map "102-0103717 " to
"1020103717"; the importers.py code normalizer strips separators and
upper-cases, mapping "70308-1" to "703081" and keeping "M3964353"; the
views_import.py code normalizer removes only the ".0" artifact and
spaces, so "70308-1" stays "70308-1" while "M3964353" is likewise
preserved. -/
theorem C7_normalizers :
    Importers._digits (some "102-0103717 ") = "1020103717" ∧
    ViewsImport._digits (some "102-0103717 ") = "1020103717" ∧
    Importers._code (some "70308-1") = "703081" ∧
    Importers._code (some "M3964353") = "M3964353" ∧
    ViewsImport._code (some "70308-1") = "70308-1" ∧
    ViewsImport._code (some "M3964353") = "M3964353" :=
  ⟨rfl, rfl, rfl, rfl, rfl, rfl⟩

/-- C8: on the failing input — a fresh schools row with stat_code
"70228", a non-empty name and import gender "boys" — the routed importer
(views_import._import_schools) raises a FieldError because its defaults
name the fields education_type and stage that the School model does not
declare, so no School row is persisted; the sibling views.py
import_schools_excel helper shows the intended behaviour: it creates the
School with that stat_code, gender "boys" and is_active true, and a
second import of the same stat_code with a different name updates the
row instead of duplicating it. -/
theorem C8_schools_import :
    ViewsImport._import_schools "boys" [] {}
        [{ stat_code := some "70228", name := some "مدرسة الأمل" }] =
      Except.error "FieldError" ∧
    import_schools_excel "boys" [] {} [("70228", "مدرسة الأمل")] =
      ([{ stat_code := "70228", name := "مدرسة الأمل", gender := "boys",
          is_active := true }],
        { created := 1, updated := 0, skipped := 0 }) ∧
    import_schools_excel "boys"
        [{ stat_code := "70228", name := "مدرسة الأمل", gender := "boys",
           is_active := true }] {}
        [("70228", "مدرسة النور")] =
      ([{ stat_code := "70228", name := "مدرسة النور", gender := "boys",
          is_active := true }],
        { created := 0, updated := 1, skipped := 0 }) :=
  ⟨rfl, rfl, rfl⟩

/-- C9: a POST to the supervisor plan endpoint in draft status leaves
only day rows with a school and visit type "in" or "remote"; a weekday
submitted without a school has its day row deleted; any submitted visit
type outside in/remote — including "none" — is coerced to "in". -/
theorem C9_post_day_invariant (now : Nat) (p : Plan) (days : List PlanDay)
    (form : PostForm) (h1 : p.status = "draft")
    (h2 : ∀ d ∈ days, d.weekday < 5) :
    (∀ d ∈ (plan_view_post now p days form).2.1,
      d.school_id ≠ none ∧ (d.visit_type = "in" ∨ d.visit_type = "remote")) ∧
    (∀ wd, wd < 5 → pyStrip (pyOr (form.school wd) "") = "" →
      ∀ d ∈ (plan_view_post now p days form).2.1, d.weekday ≠ wd) ∧
    (∀ v, normVisit v = "in" ∨ normVisit v = "remote") ∧
    normVisit (some "none") = "in" := by
  rw [plan_view_post_days now p days form h1]
  refine ⟨?_, ?_, normVisit_in_or_remote, rfl⟩
  · intro d hd
    have hg := fold_post_days_good form WEEKDAYS days
      (fun d hd => Or.inl ((mem_weekday_list d.weekday).mpr (h2 d hd))) d hd
    exact ⟨Option.isSome_iff_ne_none.mp hg.1, hg.2⟩
  · intro wd hwd hs d hd
    exact fold_post_days_deleted form wd hs WEEKDAYS (by decide)
      ((mem_weekday_list wd).mpr hwd) days d hd

/-- C9 witness: a draft plan with a no-visit day on weekday 4 POSTed to
with weekday 4 left without a school and weekday 2 submitted as "none":
every surviving day has a school and an in/remote visit type, and no day
for weekday 4 survives. -/
theorem C9_witness :
    ({} : Plan).status = "draft" ∧
    (∀ d ∈ twoDays, d.weekday < 5) ∧
    (∀ d ∈ (plan_view_post 11 {} twoDays mixedForm).2.1,
      d.school_id ≠ none ∧ (d.visit_type = "in" ∨ d.visit_type = "remote")) ∧
    (∀ d ∈ (plan_view_post 11 {} twoDays mixedForm).2.1, d.weekday ≠ 4) := by
  have h := C9_post_day_invariant 11 {} twoDays mixedForm rfl (by decide)
  exact ⟨rfl, by decide, h.1, h.2.1 4 (by decide) rfl⟩

/-- C10: a dashboard filled count of 5 implies the plan is fully filled,
but not conversely — a plan with four schools and an explicit no-visit
day is fully filled while its filled count is 4 — so the dashboard
is_full flag is not equivalent to is_fully_filled. -/
theorem C10_filled_count :
    (∀ days : List PlanDay, _plan_filled_count days = 5 → is_fully_filled days = true) ∧
    (is_fully_filled fourPlusNoneDays = true ∧
      _plan_filled_count fourPlusNoneDays ≠ 5) := by
  constructor
  · intro days h
    rw [is_fully_filled_iff]
    intro wd hwd
    have hmem : wd ∈ WEEKDAYS := (mem_weekday_list wd).mpr hwd
    have hall := List.countP_eq_length.mp
      (by unfold _plan_filled_count at h; rw [h]; rfl)
    have hp := hall wd hmem
    simp only at hp
    cases hdm : day_map days wd with
    | none => rw [hdm] at hp; exact absurd hp (by simp)
    | some d =>
      rw [hdm] at hp
      rcases day_map_aux wd days none d hdm with ⟨hm, hw⟩ | hacc
      · exact ⟨d, hm, hw, Or.inl (Option.isSome_iff_ne_none.mp hp)⟩
      · exact absurd hacc (by simp)
  · exact ⟨by decide, by decide⟩

/-- C10 witness: a plan with all five schools assigned has filled count 5
and is fully filled. -/
theorem C10_witness :
    _plan_filled_count fiveSchoolDays = 5 ∧ is_fully_filled fiveSchoolDays = true :=
  ⟨by decide, C10_filled_count.1 fiveSchoolDays (by decide)⟩

end Visits
